import Mathlib

/-!
Shallow embedding of the LiveBicepCounter repository (bicepApp.py and
poseestimationmodule.py) for checking its specification.

Modelling conventions:
* Python floats are modelled as exact numbers (`ℚ` for the repetition
  tracker, `ℝ` for the trigonometric angle pipeline).
* The repetition-counting state in `main` (bicepApp.py lines 78-79 and
  108-113) is the pair of loop variables `count` and `dir`; `dir = 0`
  means EXTENDING and `dir = 1` means CONTRACTING.
* `math.atan2` is modelled by `Complex.arg`, which like Python returns a
  value in (-pi, pi] and sends (0, 0) to 0; `math.degrees x = x * 180 / pi`.
* `np.interp(x, (x0, x1), (y0, y1))` is modelled from numpy's documented
  behaviour for a two-point table: linear interpolation inside [x0, x1]
  and the endpoint values y0 / y1 outside (numpy clamps by default).
* Python `IndexError` on list indexing is modelled by `Option`.
-/

namespace LiveBicep

/-- Direction of the current half-repetition; bicepApp.py stores it as the
integer loop variable `dir` with 0 = EXTENDING and 1 = CONTRACTING. -/
inductive Direction : Type
  | EXTENDING : Direction
  | CONTRACTING : Direction
  deriving DecidableEq, Repr

/-- The integer code bicepApp.py uses for each direction. -/
def Direction.toCode : Direction → ℕ
  | .EXTENDING => 0
  | .CONTRACTING => 1

/-- Repetition-tracker state: the loop variables `count` (bicepApp.py line
79) and `dir` (line 78).  `count` is incremented by 0.5 per half-rep. -/
structure RepState (α : Type) where
  count : α
  dir : Direction
  deriving DecidableEq, Repr

/-- bicepApp.py lines 108-110: `if per == 100 and dir == 0: count += 0.5;
dir = 1`.  The code adds the float literal 0.5, modelled exactly as 1/2. -/
def step100 {α : Type} [LinearOrderedField α] (p : α) (s : RepState α) :
    RepState α :=
  if p = 100 ∧ s.dir = Direction.EXTENDING then
    ⟨s.count + 1 / 2, Direction.CONTRACTING⟩
  else s

/-- bicepApp.py lines 111-113: `if per == 0 and dir == 1: count += 0.5;
dir = 0`, reading the state left by the first `if`. -/
def step0 {α : Type} [LinearOrderedField α] (p : α) (s : RepState α) :
    RepState α :=
  if p = 0 ∧ s.dir = Direction.CONTRACTING then
    ⟨s.count + 1 / 2, Direction.EXTENDING⟩
  else s

/-- The two sequential `if` statements applied in program order. -/
def update {α : Type} [LinearOrderedField α] (p : α) (s : RepState α) :
    RepState α :=
  step0 p (step100 p s)

/-- Modelled from the spec's transition rules for RepetitionTracker.update,
as three mutually exclusive cases: percentage 100 while EXTENDING,
percentage 0 while CONTRACTING, otherwise no change. -/
def updateSpec {α : Type} [LinearOrderedField α] (p : α) (s : RepState α) :
    RepState α :=
  if p = 100 ∧ s.dir = Direction.EXTENDING then
    ⟨s.count + 1 / 2, Direction.CONTRACTING⟩
  else if p = 0 ∧ s.dir = Direction.CONTRACTING then
    ⟨s.count + 1 / 2, Direction.EXTENDING⟩
  else s

/-- The reset handler of bicepApp.py lines 136-138: on the `r` key,
`count = 0` and `dir = 0` (EXTENDING). -/
def reset {α : Type} [LinearOrderedField α] (_s : RepState α) : RepState α :=
  ⟨0, Direction.EXTENDING⟩

/-- An operation on the tracker state: either one percentage update
(lines 108-113) or a reset (lines 136-138). -/
inductive Op : Type
  | update (p : ℚ) : Op
  | reset : Op

/-- Apply one operation to the tracker state. -/
def runOp (s : RepState ℚ) : Op → RepState ℚ
  | .update p => update p s
  | .reset => reset s

/-- Run a sequence of operations from the initial state
(count 0, dir EXTENDING) of bicepApp.py lines 78-79. -/
def run (ops : List Op) : RepState ℚ :=
  ops.foldl runOp ⟨0, Direction.EXTENDING⟩

/-- Two-point `np.interp(x, (x0, x1), (y0, y1))` as used at
bicepApp.py line 100: numpy returns y0 for x below x0 and y1 for x above
x1 (clamping), and interpolates linearly in between. -/
def interp {α : Type} [LinearOrderedField α] (x x0 x1 y0 y1 : α) : α :=
  if x ≤ x0 then y0
  else if x1 ≤ x then y1
  else y0 + (x - x0) * (y1 - y0) / (x1 - x0)

/-- Python's `math.atan2 y x`, modelled by the argument of the complex
number `x + y*I`: both lie in (-pi, pi] and both send (0, 0) to 0. -/
noncomputable def atan2 (y x : ℝ) : ℝ :=
  Complex.arg ((x : ℂ) + (y : ℂ) * Complex.I)

/-- Python's `math.degrees`: radians times 180 over pi. -/
noncomputable def degrees (r : ℝ) : ℝ :=
  r * 180 / Real.pi

/-- The angle formula of poseestimationmodule.py lines 108-111 (the
AngleCalculator of the spec): `angle = degrees(atan2(y3-y2, x3-x2) -
atan2(y1-y2, x1-x2))`, and `if angle < 0: angle += 360`.  `p2` is the
joint vertex. -/
noncomputable def computeAngle (p1 p2 p3 : ℝ × ℝ) : ℝ :=
  let angle :=
    degrees (atan2 (p3.2 - p2.2) (p3.1 - p2.1) - atan2 (p1.2 - p2.2) (p1.1 - p2.1))
  if angle < 0 then angle + 360 else angle

/-- Python's `int()` on a float: truncation toward zero, used for the
angle text drawn at poseestimationmodule.py line 126. -/
noncomputable def trunc (x : ℝ) : ℤ :=
  if 0 ≤ x then ⌊x⌋ else ⌈x⌉

/-- One cv2 drawing primitive issued by `findAngle` when `draw` is true
(poseestimationmodule.py lines 113-127).  Geometry-relevant arguments
only; colours and fonts are presentation constants. -/
inductive DrawCmd : Type
  | line (a b : ℤ × ℤ) : DrawCmd
  | circle (center : ℤ × ℤ) (radius : ℕ) (filled : Bool) : DrawCmd
  | text (value : ℤ) (pos : ℤ × ℤ) : DrawCmd
  deriving DecidableEq, Repr

/-- A landmark entry `[id, cx, cy]` as produced by `findPosition`
(poseestimationmodule.py line 84). -/
abbrev Landmark : Type := ℕ × ℤ × ℤ

/-- `poseDetector.findAngle` (poseestimationmodule.py lines 90-128): look
up the three landmarks by index (a Python `IndexError` is modelled as
`none`), compute the angle, and if `draw` is set append the drawing
primitives of lines 115-127 to the image.  Returns the angle together
with the possibly extended image. -/
noncomputable def findAngle (lmList : List Landmark) (p1 p2 p3 : ℕ)
    (draw : Bool) (img : List DrawCmd) : Option (ℝ × List DrawCmd) :=
  match lmList[p1]?, lmList[p2]?, lmList[p3]? with
  | some (_, x1, y1), some (_, x2, y2), some (_, x3, y3) =>
      let angle := computeAngle ((x1 : ℝ), (y1 : ℝ)) ((x2 : ℝ), (y2 : ℝ)) ((x3 : ℝ), (y3 : ℝ))
      let img2 :=
        if draw then
          img ++ [DrawCmd.line (x1, y1) (x2, y2),
                  DrawCmd.line (x3, y3) (x2, y2),
                  DrawCmd.circle (x1, y1) 10 false,
                  DrawCmd.circle (x1, y1) 5 true,
                  DrawCmd.circle (x2, y2) 10 false,
                  DrawCmd.circle (x2, y2) 5 true,
                  DrawCmd.circle (x3, y3) 10 false,
                  DrawCmd.circle (x3, y3) 5 true,
                  DrawCmd.text (trunc angle) (x2 - 50, y2 - 50)]
        else img
      some (angle, img2)
  | _, _, _ => none

/-- The state-relevant part of one loop iteration of `main`
(bicepApp.py lines 97-113): if the landmark list is non-empty, compute
the elbow angle from landmarks 12, 14, 16 (line 99, with `draw=False`),
remap it through `np.interp(angle, (210, 310), (0, 100))` (line 100) and
apply the repetition update (lines 108-113); if the list is empty, the
whole block is skipped and the state is unchanged.  `none` models the
`IndexError` raised when the list is non-empty but too short. -/
noncomputable def processFrame (lmList : List Landmark) (s : RepState ℝ) :
    Option (RepState ℝ) :=
  if lmList.length ≠ 0 then
    match findAngle lmList 12 14 16 false [] with
    | some (angle, _) =>
        let per := interp angle 210 310 0 100
        some (update per s)
    | none => none
  else
    some s

/-! ## Helper lemmas about the repetition tracker -/

lemma num_hundred_ne_zero {α : Type} [LinearOrderedField α] : (100 : α) ≠ 0 := by
  norm_num

lemma update_of_hit100 {α : Type} [LinearOrderedField α] {p : α} {s : RepState α}
    (hp : p = 100) (hd : s.dir = Direction.EXTENDING) :
    update p s = ⟨s.count + 1 / 2, Direction.CONTRACTING⟩ := by
  have h1 : update p s = step0 p ⟨s.count + 1 / 2, Direction.CONTRACTING⟩ := by
    unfold update step100
    rw [if_pos ⟨hp, hd⟩]
  rw [h1]
  unfold step0
  rw [if_neg]
  rintro ⟨hp0, -⟩
  rw [hp] at hp0
  exact num_hundred_ne_zero hp0

lemma update_of_hit0 {α : Type} [LinearOrderedField α] {p : α} {s : RepState α}
    (hp : p = 0) (hd : s.dir = Direction.CONTRACTING) :
    update p s = ⟨s.count + 1 / 2, Direction.EXTENDING⟩ := by
  have h1 : update p s = step0 p s := by
    unfold update step100
    rw [if_neg]
    rintro ⟨-, hd100⟩
    rw [hd] at hd100
    exact Direction.noConfusion hd100
  rw [h1]
  unfold step0
  rw [if_pos ⟨hp, hd⟩]

lemma update_of_miss {α : Type} [LinearOrderedField α] {p : α} {s : RepState α}
    (h100 : ¬(p = 100 ∧ s.dir = Direction.EXTENDING))
    (h0 : ¬(p = 0 ∧ s.dir = Direction.CONTRACTING)) :
    update p s = s := by
  unfold update step100 step0
  rw [if_neg h100, if_neg h0]

/-- The three mutually exclusive behaviours of `update`. -/
lemma update_cases {α : Type} [LinearOrderedField α] (p : α) (s : RepState α) :
    (p = 100 ∧ s.dir = Direction.EXTENDING ∧
      update p s = ⟨s.count + 1 / 2, Direction.CONTRACTING⟩) ∨
    (p = 0 ∧ s.dir = Direction.CONTRACTING ∧
      update p s = ⟨s.count + 1 / 2, Direction.EXTENDING⟩) ∨
    (¬(p = 100 ∧ s.dir = Direction.EXTENDING) ∧
      ¬(p = 0 ∧ s.dir = Direction.CONTRACTING) ∧ update p s = s) := by
  by_cases h100 : p = 100 ∧ s.dir = Direction.EXTENDING
  · exact Or.inl ⟨h100.1, h100.2, update_of_hit100 h100.1 h100.2⟩
  · by_cases h0 : p = 0 ∧ s.dir = Direction.CONTRACTING
    · exact Or.inr (Or.inl ⟨h0.1, h0.2, update_of_hit0 h0.1 h0.2⟩)
    · exact Or.inr (Or.inr ⟨h100, h0, update_of_miss h100 h0⟩)

lemma update_count_cases {α : Type} [LinearOrderedField α] (p : α) (s : RepState α) :
    (update p s).count = s.count ∨ (update p s).count = s.count + 1 / 2 := by
  rcases update_cases p s with ⟨-, -, h⟩ | ⟨-, -, h⟩ | ⟨-, -, h⟩
  · rw [h]; exact Or.inr rfl
  · rw [h]; exact Or.inr rfl
  · rw [h]; exact Or.inl rfl

lemma update_count_mono {α : Type} [LinearOrderedField α] (p : α) (s : RepState α) :
    s.count ≤ (update p s).count := by
  rcases update_count_cases p s with h | h
  · rw [h]
  · rw [h]; linarith

/-- A run never leaves the set of counts of the form n/2 with n a natural
number. -/
lemma run_count_half (ops : List Op) :
    ∃ n : ℕ, (run ops).count = n * (1 / 2) := by
  suffices h : ∀ s : RepState ℚ, (∃ n : ℕ, s.count = n * (1 / 2)) →
      ∃ n : ℕ, (ops.foldl runOp s).count = n * (1 / 2) by
    exact h _ ⟨0, by norm_num⟩
  induction ops with
  | nil => exact fun s hs => hs
  | cons op rest ih =>
      intro s hs
      rw [List.foldl_cons]
      apply ih
      obtain ⟨n, hn⟩ := hs
      cases op with
      | reset => exact ⟨0, by simp [runOp, reset]⟩
      | update p =>
          rcases update_count_cases p s with h | h
          · exact ⟨n, by rw [runOp, h, hn]⟩
          · refine ⟨n + 1, by rw [runOp, h, hn]; push_cast; ring⟩

/-! ## C1, C6, C8 -/

/-- C1: for every tracker state and percentage, the sequential two-`if`
update of bicepApp.py lines 108-113 behaves exactly as the spec's three
mutually exclusive transition rules (`updateSpec`); and from
(count 0, EXTENDING) the sequence [50, 100, 50, 0] produces the count
progression [0, 0.5, 0.5, 1] with directions [EXTENDING, CONTRACTING,
CONTRACTING, EXTENDING]. -/
theorem update_matches_spec_and_sequence :
    (∀ (p : ℚ) (s : RepState ℚ), update p s = updateSpec p s) ∧
    run [Op.update 50] = ⟨0, Direction.EXTENDING⟩ ∧
    run [Op.update 50, Op.update 100] = ⟨1 / 2, Direction.CONTRACTING⟩ ∧
    run [Op.update 50, Op.update 100, Op.update 50] = ⟨1 / 2, Direction.CONTRACTING⟩ ∧
    run [Op.update 50, Op.update 100, Op.update 50, Op.update 0] = ⟨1, Direction.EXTENDING⟩ := by
  refine ⟨?_, ?_, ?_, ?_, ?_⟩
  · intro p s
    rcases update_cases p s with ⟨hp, hd, h⟩ | ⟨hp, hd, h⟩ | ⟨h100, h0, h⟩
    · rw [h, updateSpec, if_pos ⟨hp, hd⟩]
    · rw [h, updateSpec, if_neg, if_pos ⟨hp, hd⟩]
      rintro ⟨hp100, -⟩
      rw [hp] at hp100
      exact num_hundred_ne_zero hp100.symm
    · rw [h, updateSpec, if_neg h100, if_neg h0]
  · norm_num [run, runOp, update, step100, step0]
  · norm_num [run, runOp, update, step100, step0]
  · norm_num [run, runOp, update, step100, step0]
  · norm_num [run, runOp, update, step100, step0]

/-- C6: the reset handler (bicepApp.py lines 136-138) sets count to 0 and
direction to EXTENDING from any prior state, and the tracker state holds
nothing else; appended to any run it yields exactly that state. -/
theorem reset_clears_state :
    (∀ s : RepState ℚ, reset s = ⟨0, Direction.EXTENDING⟩) ∧
    ∀ ops : List Op, run (ops ++ [Op.reset]) = ⟨0, Direction.EXTENDING⟩ := by
  refine ⟨fun s => rfl, fun ops => ?_⟩
  rw [run, List.foldl_append]
  rfl

/-- C8: from any count with direction EXTENDING, feeding percentage 100
twice increments the count by exactly 0.5 in total: the first update adds
0.5 and flips to CONTRACTING, the second is a no-op. -/
theorem update_100_twice_half :
    ∀ c : ℚ, update 100 ⟨c, Direction.EXTENDING⟩ = ⟨c + 1 / 2, Direction.CONTRACTING⟩ ∧
      update 100 (update 100 ⟨c, Direction.EXTENDING⟩) = ⟨c + 1 / 2, Direction.CONTRACTING⟩ := by
  intro c
  have h1 : update (100 : ℚ) ⟨c, Direction.EXTENDING⟩ = ⟨c + 1 / 2, Direction.CONTRACTING⟩ :=
    update_of_hit100 rfl rfl
  refine ⟨h1, ?_⟩
  rw [h1]
  apply update_of_miss
  · rintro ⟨-, hd⟩
    exact Direction.noConfusion hd
  · rintro ⟨hp, -⟩
    exact num_hundred_ne_zero hp

/-- C3: across any sequence of updates and resets from (count 0,
EXTENDING): the count is a non-negative multiple of 0.5; updates never
decrease it while reset returns it to 0; the direction is one of the two
enum values; the direction flips only on an exact boundary percentage
matching the current direction; and percentages strictly between 0 and
100 leave the state unchanged. -/
theorem tracker_invariants (ops : List Op) :
    (0 ≤ (run ops).count ∧ ∃ n : ℕ, (run ops).count = n * (1 / 2)) ∧
    (∀ p : ℚ, (run ops).count ≤ (update p (run ops)).count) ∧
    reset (run ops) = ⟨0, Direction.EXTENDING⟩ ∧
    ((run ops).dir = Direction.EXTENDING ∨ (run ops).dir = Direction.CONTRACTING) ∧
    (∀ p : ℚ, (update p (run ops)).dir ≠ (run ops).dir →
      (p = 100 ∧ (run ops).dir = Direction.EXTENDING) ∨
      (p = 0 ∧ (run ops).dir = Direction.CONTRACTING)) ∧
    (∀ p : ℚ, 0 < p → p < 100 → update p (run ops) = run ops) := by
  obtain ⟨n, hn⟩ := run_count_half ops
  refine ⟨⟨?_, n, hn⟩, fun p => update_count_mono p _, rfl, ?_, ?_, ?_⟩
  · rw [hn]
    positivity
  · cases h : (run ops).dir
    · exact Or.inl rfl
    · exact Or.inr rfl
  · intro p hflip
    rcases update_cases p (run ops) with ⟨hp, hd, -⟩ | ⟨hp, hd, -⟩ | ⟨-, -, h⟩
    · exact Or.inl ⟨hp, hd⟩
    · exact Or.inr ⟨hp, hd⟩
    · exact absurd (by rw [h]) hflip
  · intro p hpos hlt
    apply update_of_miss
    · rintro ⟨hp, -⟩
      rw [hp] at hlt
      exact lt_irrefl _ hlt
    · rintro ⟨hp, -⟩
      rw [hp] at hpos
      exact lt_irrefl _ hpos

/-- Witness for C3 at the concrete operation sequence [update 100] and
percentage 50. -/
theorem tracker_invariants_witness :
    update 50 (run [Op.update 100]) = run [Op.update 100] :=
  (tracker_invariants [Op.update 100]).2.2.2.2.2 50 (by norm_num) (by norm_num)

/-- C2 counterexample: at angle 350 the remap of bicepApp.py line 100
returns the clamped endpoint 100, while the unclamped linear formula of
the claim gives 140, so the remap is not unclamped extrapolation. -/
theorem remap_clamps_at_350 :
    interp (350 : ℝ) 210 310 0 100 = 100 ∧
    ((350 : ℝ) - 210) / (310 - 210) * 100 = 140 ∧
    interp (350 : ℝ) 210 310 0 100 ≠ ((350 : ℝ) - 210) / (310 - 210) * 100 := by
  norm_num [interp]

/-- C2 amended: the angle-to-percentage remap is the linear interpolation
formula (a - 210) / (310 - 210) * 100 clamped to [0, 100]: inside the
calibration range it is exactly the linear formula, below 210 it returns
0 and above 310 it returns 100. -/
theorem remap_eq_clamped_linear (a : ℝ) :
    interp a 210 310 0 100 = max 0 (min 100 ((a - 210) / (310 - 210) * 100)) := by
  have hl : (a - 210) / (310 - 210) * 100 = a - 210 := by
    norm_num
  rw [hl]
  unfold interp
  split_ifs with h1 h2
  · rw [min_eq_right (by linarith), max_eq_left (by linarith)]
  · rw [min_eq_left (by linarith), max_eq_right (by linarith)]
  · rw [min_eq_right (by linarith), max_eq_right (by linarith)]
    ring

/-- C7: a frame with an empty landmark list skips the angle and update
block of bicepApp.py lines 97-113 entirely: the tracker state is
returned unchanged (and no error occurs). -/
theorem processFrame_empty_noop (s : RepState ℝ) :
    processFrame [] s = some s := by
  simp [processFrame]

/-! ## Helper lemmas about atan2 and degrees -/

lemma neg_pi_lt_atan2 (y x : ℝ) : -Real.pi < atan2 y x :=
  Complex.neg_pi_lt_arg _

lemma atan2_le_pi (y x : ℝ) : atan2 y x ≤ Real.pi :=
  Complex.arg_le_pi _

lemma atan2_zero_of_pos {x : ℝ} (hx : 0 ≤ x) : atan2 0 x = 0 := by
  unfold atan2
  rw [show ((x : ℂ) + ((0 : ℝ) : ℂ) * Complex.I) = ((x : ℝ) : ℂ) by push_cast; ring]
  exact Complex.arg_ofReal_of_nonneg hx

lemma atan2_neg_hundred_zero : atan2 (-100) 0 = -(Real.pi / 2) := by
  unfold atan2
  rw [show (((0 : ℝ) : ℂ) + ((-100 : ℝ) : ℂ) * Complex.I) =
      ((100 : ℝ) : ℂ) * (-Complex.I) by push_cast; ring]
  rw [Complex.arg_real_mul _ (by norm_num : (0 : ℝ) < 100)]
  exact Complex.arg_neg_I

lemma degrees_lt_360 {d : ℝ} (h : d < 2 * Real.pi) : degrees d < 360 := by
  unfold degrees
  rw [div_lt_iff₀ Real.pi_pos]
  linarith

lemma neg_360_lt_degrees {d : ℝ} (h : -(2 * Real.pi) < d) : -360 < degrees d := by
  unfold degrees
  rw [lt_div_iff₀ Real.pi_pos]
  linarith

/-- C4: `computeAngle` is exactly degrees(atan2(y3-y2, x3-x2) -
atan2(y1-y2, x1-x2)) with 360 added when negative, and at p1 = (100, 0),
p2 = (0, 0), p3 = (0, -100) it returns exactly 270 degrees. -/
theorem computeAngle_formula_and_concrete :
    (∀ p1 p2 p3 : ℝ × ℝ,
      computeAngle p1 p2 p3 =
        if degrees (atan2 (p3.2 - p2.2) (p3.1 - p2.1) - atan2 (p1.2 - p2.2) (p1.1 - p2.1)) < 0 then
          degrees (atan2 (p3.2 - p2.2) (p3.1 - p2.1) - atan2 (p1.2 - p2.2) (p1.1 - p2.1)) + 360
        else
          degrees (atan2 (p3.2 - p2.2) (p3.1 - p2.1) - atan2 (p1.2 - p2.2) (p1.1 - p2.1))) ∧
    computeAngle (100, 0) (0, 0) (0, -100) = 270 := by
  constructor
  · intro p1 p2 p3
    rfl
  · have hd : degrees (atan2 ((-100 : ℝ) - 0) ((0 : ℝ) - 0) -
        atan2 ((0 : ℝ) - 0) ((100 : ℝ) - 0)) = -90 := by
      rw [show ((-100 : ℝ) - 0) = (-100 : ℝ) by norm_num,
          show ((0 : ℝ) - 0) = (0 : ℝ) by norm_num,
          show ((100 : ℝ) - 0) = (100 : ℝ) by norm_num]
      rw [atan2_neg_hundred_zero, atan2_zero_of_pos (by norm_num : (0 : ℝ) ≤ 100)]
      unfold degrees
      rw [div_eq_iff Real.pi_ne_zero]
      ring
    simp only [computeAngle]
    rw [hd, if_pos (by norm_num : (-90 : ℝ) < 0)]
    norm_num

/-- C5: for non-coincident landmark points (p1 and p3 distinct from the
vertex p2), `computeAngle` returns a value in the half-open interval
[0, 360). -/
theorem computeAngle_range (p1 p2 p3 : ℝ × ℝ) (h1 : p1 ≠ p2) (h3 : p3 ≠ p2) :
    0 ≤ computeAngle p1 p2 p3 ∧ computeAngle p1 p2 p3 < 360 := by
  have hub : degrees (atan2 (p3.2 - p2.2) (p3.1 - p2.1) -
      atan2 (p1.2 - p2.2) (p1.1 - p2.1)) < 360 := by
    apply degrees_lt_360
    have ha := atan2_le_pi (p3.2 - p2.2) (p3.1 - p2.1)
    have hb := neg_pi_lt_atan2 (p1.2 - p2.2) (p1.1 - p2.1)
    linarith
  have hlb : -360 < degrees (atan2 (p3.2 - p2.2) (p3.1 - p2.1) -
      atan2 (p1.2 - p2.2) (p1.1 - p2.1)) := by
    apply neg_360_lt_degrees
    have ha := neg_pi_lt_atan2 (p3.2 - p2.2) (p3.1 - p2.1)
    have hb := atan2_le_pi (p1.2 - p2.2) (p1.1 - p2.1)
    linarith
  simp only [computeAngle]
  split_ifs with hneg
  · exact ⟨by linarith, by linarith⟩
  · exact ⟨le_of_not_lt hneg, hub⟩

/-- Witness for C5 at the concrete triple of C4. -/
theorem computeAngle_range_witness :
    0 ≤ computeAngle (100, 0) (0, 0) (0, -100) ∧
      computeAngle (100, 0) (0, 0) (0, -100) < 360 :=
  computeAngle_range (100, 0) (0, 0) (0, -100) (by simp) (by simp)

/-- C9: the angle value returned by `findAngle` does not depend on the
draw flag; drawing only extends the image. -/
theorem findAngle_value_draw_independent (lm : List Landmark) (i1 i2 i3 : ℕ)
    (img : List DrawCmd) (d1 d2 : Bool) :
    Option.map Prod.fst (findAngle lm i1 i2 i3 d1 img) =
    Option.map Prod.fst (findAngle lm i1 i2 i3 d2 img) := by
  unfold findAngle
  rcases e1 : lm[i1]? with _ | ⟨a1, x1, y1⟩ <;>
    rcases e2 : lm[i2]? with _ | ⟨a2, x2, y2⟩ <;>
      rcases e3 : lm[i3]? with _ | ⟨a3, x3, y3⟩ <;>
        simp

/-- C10: `findAngle` performs unchecked indexing, so whenever the list is
longer than every requested id the lookups succeed and an angle is
returned, while the call with ids 12, 14, 16 fails (Python IndexError,
modelled as `none`) on every list of at most 16 entries - the
orchestrator's non-emptiness guard alone does not make it safe. -/
theorem findAngle_inbounds_safe :
    (∀ (lm : List Landmark) (i1 i2 i3 : ℕ) (draw : Bool) (img : List DrawCmd),
        max i1 (max i2 i3) < lm.length →
        (findAngle lm i1 i2 i3 draw img).isSome = true) ∧
    (∀ (lm : List Landmark) (draw : Bool) (img : List DrawCmd),
        lm.length ≤ 16 → findAngle lm 12 14 16 draw img = none) := by
  constructor
  · intro lm i1 i2 i3 draw img h
    have h1 : i1 < lm.length := lt_of_le_of_lt (le_max_left _ _) h
    have h2 : i2 < lm.length := lt_of_le_of_lt ((le_max_left _ _).trans (le_max_right _ _)) h
    have h3 : i3 < lm.length := lt_of_le_of_lt ((le_max_right _ _).trans (le_max_right _ _)) h
    unfold findAngle
    rw [List.getElem?_eq_getElem h1, List.getElem?_eq_getElem h2,
        List.getElem?_eq_getElem h3]
    rcases e1 : lm[i1] with ⟨a1, x1, y1⟩
    rcases e2 : lm[i2] with ⟨a2, x2, y2⟩
    rcases e3 : lm[i3] with ⟨a3, x3, y3⟩
    simp
  · intro lm draw img h
    have h16 : lm[16]? = none := List.getElem?_eq_none (by omega)
    unfold findAngle
    rw [h16]
    rcases e1 : lm[12]? with _ | ⟨a1, x1, y1⟩
    · simp
    · rcases e2 : lm[14]? with _ | ⟨a2, x2, y2⟩
      · simp
      · simp

/-- Witness for C10 at a concrete 17-entry landmark list. -/
theorem findAngle_inbounds_safe_witness :
    (findAngle (List.replicate 17 ((0 : ℕ), (0 : ℤ), (0 : ℤ))) 12 14 16 false []).isSome = true :=
  findAngle_inbounds_safe.1 (List.replicate 17 ((0 : ℕ), (0 : ℤ), (0 : ℤ))) 12 14 16 false []
    (by decide)

end LiveBicep
